import Mathlib

/-!
Shallow embedding of the request-forwarding proxy in src/llm/src/main.rs.

The whole program is one axum handler, `proxy`, which per request:
reads the environment variable OLLAMA_UPSTREAM (defaulting to
http://localhost:11435), concatenates the inbound path-and-query onto
that base (or "/" when the request has none), clones method and headers,
buffers the inbound body (substituting empty bytes when the read fails),
issues the outbound call, and relays either the upstream status with a
streamed body or a 502 with a textual error message.

The embedding makes the per-request environment snapshot and the
outbound network call explicit parameters: `env` is the value of
OLLAMA_UPSTREAM observed at handling time (none = unset or unreadable),
and `send` is the oracle deciding the outcome of the outbound HTTP call.
-/

namespace LlmProxy

/-- Request and response bodies are raw byte sequences. -/
abbrev ByteSeq := List Nat

/-- A header set, as an ordered multimap of name-value pairs. -/
abbrev HeaderMap := List (String × String)

/-- The fallback upstream base hard-coded in the unwrap_or_else closure. -/
def defaultUpstream : String := "http://localhost:11435"

/-- env::var("OLLAMA_UPSTREAM").unwrap_or_else: the override when the
variable is set and readable, the hard-coded default otherwise. -/
def upstreamBase (env : Option String) : String :=
  match env with
  | some v => v
  | none => defaultUpstream

/-- req.uri().path_and_query().map(as_str).unwrap_or("/"). -/
def pathOrRoot (paq : Option String) : String :=
  match paq with
  | some p => p
  | none => "/"

/-- The inbound axum request as the handler observes it: method,
path-and-query of the URI (none when the URI has no such component),
header set, and the outcome of to_bytes on the body. -/
structure InboundRequest where
  method : String
  pathAndQuery : Option String
  headers : HeaderMap
  bodyRead : Except String ByteSeq

/-- The outbound reqwest request assembled by the handler. -/
structure OutboundRequest where
  method : String
  url : String
  headers : HeaderMap
  body : ByteSeq
deriving DecidableEq

/-- http::StatusCode invariant: from_u16 accepts exactly 100..=999. -/
def statusValid (s : Nat) : Bool :=
  decide (100 ≤ s) && decide (s ≤ 999)

/-- An upstream reqwest response: a status code (valid by the StatusCode
type invariant), a header set, and the body as a chunk stream. -/
structure UpstreamResponse where
  status : Nat
  statusOk : statusValid status = true
  headers : HeaderMap
  bodyChunks : List ByteSeq

/-- The body of the response returned to the original caller: either the
upstream byte stream relayed chunk-by-chunk, or a plain-text message. -/
inductive ResponseBody where
  | stream (chunks : List ByteSeq)
  | text (s : String)
deriving DecidableEq

/-- The axum response returned to the original caller. -/
structure ProxyResponse where
  status : Nat
  headers : HeaderMap
  body : ResponseBody
deriving DecidableEq

/-- Response::builder().status(s).body(b): the builder records an error
for an out-of-range status and body() then returns Err; the source
unwraps that Result, so the embedding returns an Option. The builder is
given no headers, so a successful build carries an empty header set. -/
def buildResponse (status : Nat) (body : ResponseBody) : Option ProxyResponse :=
  if statusValid status then
    some { status := status, headers := [], body := body }
  else
    none

/-- to_bytes(...).unwrap_or_default(): a failed inbound body read
degrades to the empty byte sequence. -/
def readBodyOrDefault (r : Except String ByteSeq) : ByteSeq :=
  match r with
  | .ok b => b
  | .error _ => []

/-- Lines 20-28 of the handler: resolve the upstream base from the
environment snapshot, build the target URL by verbatim concatenation,
and clone method, headers and (buffered) body onto the outbound request. -/
def buildOutbound (env : Option String) (req : InboundRequest) : OutboundRequest :=
  { method := req.method
  , url := upstreamBase env ++ pathOrRoot req.pathAndQuery
  , headers := req.headers
  , body := readBodyOrDefault req.bodyRead }

/-- Lines 30-39 of the handler: on Ok relay the upstream status with the
streamed upstream body; on Err build a 502 with a textual description of
the error. -/
def handleResult (result : Except String UpstreamResponse) : Option ProxyResponse :=
  match result with
  | .ok r => buildResponse r.status (.stream r.bodyChunks)
  | .error e => buildResponse 502 (.text ("Proxy error: " ++ e))

/-- The whole handler: issue the assembled outbound request through the
outbound-call oracle `send` and turn its outcome into the response. -/
def proxy (env : Option String) (req : InboundRequest)
    (send : OutboundRequest → Except String UpstreamResponse) : Option ProxyResponse :=
  handleResult (send (buildOutbound env req))

/-- Whether an outbound call outcome is a success. -/
def callSucceeded (result : Except String UpstreamResponse) : Bool :=
  match result with
  | .ok _ => true
  | .error _ => false

/-! Concrete fixtures used by witnesses and counterexamples. -/

/-- A POST with body bytes for the JSON text with key a and value 1. -/
def reqSample : InboundRequest :=
  { method := "POST"
  , pathAndQuery := some "/api/generate?x=1"
  , headers := [("content-type", "application/json")]
  , bodyRead := Except.ok [123, 34, 97, 34, 58, 49, 125] }

/-- A GET whose path has duplicate slashes and a repeated query key. -/
def reqDupSlash : InboundRequest :=
  { method := "GET"
  , pathAndQuery := some "//a//b?x=1&x=1"
  , headers := []
  , bodyRead := Except.ok [] }

/-- A request whose URI carries no path-and-query component. -/
def reqNoPaq : InboundRequest :=
  { method := "OPTIONS"
  , pathAndQuery := none
  , headers := []
  , bodyRead := Except.ok [] }

/-- A request whose inbound body read failed. -/
def reqBadBody : InboundRequest :=
  { method := "PUT"
  , pathAndQuery := some "/up"
  , headers := [("h", "v")]
  , bodyRead := Except.error "length limit exceeded" }

/-- A 200 upstream response with a header and two body chunks. -/
def respOk200 : UpstreamResponse :=
  { status := 200
  , statusOk := by decide
  , headers := [("content-type", "text/plain")]
  , bodyChunks := [[104, 105], [33]] }

/-- A 502 produced by the upstream itself (the call succeeds). -/
def respOk502 : UpstreamResponse :=
  { status := 502
  , statusOk := by decide
  , headers := []
  , bodyChunks := [] }

/-- An oracle under which every outbound call succeeds with respOk200. -/
def sendOk200 : OutboundRequest → Except String UpstreamResponse :=
  fun _ => Except.ok respOk200

/-- An oracle under which every outbound call succeeds with respOk502. -/
def sendOk502 : OutboundRequest → Except String UpstreamResponse :=
  fun _ => Except.ok respOk502

/-- An oracle under which every outbound call fails. -/
def sendFail : OutboundRequest → Except String UpstreamResponse :=
  fun _ => Except.error "connection refused"

/-! Claims. -/

/-- Claim C1: for every inbound request, the target URL of the outbound
request is the upstream base concatenated verbatim with the inbound
path-and-query string, and is the base followed by "/" when the request
has no path-and-query component. -/
theorem target_url_verbatim (env : Option String) (req : InboundRequest) :
    (∀ p : String, req.pathAndQuery = some p →
      (buildOutbound env req).url = upstreamBase env ++ p) ∧
    (req.pathAndQuery = none →
      (buildOutbound env req).url = upstreamBase env ++ "/") := by
  constructor
  · intro p hp
    simp [buildOutbound, pathOrRoot, hp]
  · intro hn
    simp [buildOutbound, pathOrRoot, hn]

/-- Witness for C1 at concrete inputs: duplicate slashes and the repeated
query key survive verbatim, and the missing path-and-query becomes "/". -/
theorem target_url_verbatim_witness :
    (buildOutbound none reqDupSlash).url = "http://localhost:11435//a//b?x=1&x=1" ∧
    (buildOutbound none reqNoPaq).url = "http://localhost:11435/" := by
  refine ⟨?_, ?_⟩
  · exact (target_url_verbatim none reqDupSlash).1 "//a//b?x=1&x=1" rfl
  · exact (target_url_verbatim none reqNoPaq).2 rfl

/-- Claim C2: when the inbound body is read successfully, the outbound
request carries the inbound method, header set and complete body bytes
unmodified, and the handler issues exactly that outbound request. -/
theorem outbound_fidelity (env : Option String) (req : InboundRequest)
    (b : ByteSeq) (send : OutboundRequest → Except String UpstreamResponse)
    (h : req.bodyRead = Except.ok b) :
    (buildOutbound env req).method = req.method ∧
    (buildOutbound env req).headers = req.headers ∧
    (buildOutbound env req).body = b ∧
    proxy env req send = handleResult (send (buildOutbound env req)) := by
  refine ⟨rfl, rfl, ?_, rfl⟩
  simp [buildOutbound, readBodyOrDefault, h]

/-- Witness for C2 at a concrete POST request. -/
theorem outbound_fidelity_witness :
    (buildOutbound none reqSample).method = "POST" ∧
    (buildOutbound none reqSample).headers = [("content-type", "application/json")] ∧
    (buildOutbound none reqSample).body = [123, 34, 97, 34, 58, 49, 125] ∧
    proxy none reqSample sendOk200 = handleResult (sendOk200 (buildOutbound none reqSample)) := by
  have h := outbound_fidelity none reqSample [123, 34, 97, 34, 58, 49, 125] sendOk200 rfl
  exact h

/-- Claim C3: whenever the outbound call succeeds, the response to the
original caller carries exactly the upstream status code. -/
theorem status_relay (env : Option String) (req : InboundRequest)
    (send : OutboundRequest → Except String UpstreamResponse)
    (r : UpstreamResponse) (h : send (buildOutbound env req) = Except.ok r) :
    ∃ resp : ProxyResponse, proxy env req send = some resp ∧ resp.status = r.status := by
  refine ⟨{ status := r.status, headers := [], body := .stream r.bodyChunks }, ?_, rfl⟩
  simp [proxy, h, handleResult, buildResponse, r.statusOk]

/-- Witness for C3: a concrete 200 upstream response is relayed as 200. -/
theorem status_relay_witness :
    ∃ resp : ProxyResponse, proxy none reqSample sendOk200 = some resp ∧
      resp.status = respOk200.status :=
  status_relay none reqSample sendOk200 respOk200 rfl

/-- Claim C5: the upstream base used in every target URL is the value of
OLLAMA_UPSTREAM when set and readable, and exactly the default
"http://localhost:11435" when the variable is unset or unreadable. -/
theorem upstream_base_resolution (v : String) (req : InboundRequest) :
    upstreamBase (some v) = v ∧
    upstreamBase none = "http://localhost:11435" ∧
    (buildOutbound (some v) req).url = v ++ pathOrRoot req.pathAndQuery ∧
    (buildOutbound none req).url = "http://localhost:11435" ++ pathOrRoot req.pathAndQuery :=
  ⟨rfl, rfl, rfl, rfl⟩

/-- Claim C6: a failed inbound body read does not abort the request: the
outbound request is still issued (the handler's response is the handling
of the oracle's outcome on it) with a zero-length body, the other
attributes unaffected. -/
theorem body_read_failure_degrades (env : Option String) (req : InboundRequest)
    (e : String) (send : OutboundRequest → Except String UpstreamResponse)
    (h : req.bodyRead = Except.error e) :
    (buildOutbound env req).body = [] ∧
    (buildOutbound env req).method = req.method ∧
    (buildOutbound env req).headers = req.headers ∧
    (buildOutbound env req).url = upstreamBase env ++ pathOrRoot req.pathAndQuery ∧
    proxy env req send = handleResult (send (buildOutbound env req)) := by
  refine ⟨?_, rfl, rfl, rfl, rfl⟩
  simp [buildOutbound, readBodyOrDefault, h]

/-- Witness for C6 at a concrete unreadable-body request. -/
theorem body_read_failure_degrades_witness :
    (buildOutbound none reqBadBody).body = [] ∧
    (buildOutbound none reqBadBody).method = reqBadBody.method ∧
    (buildOutbound none reqBadBody).headers = reqBadBody.headers ∧
    (buildOutbound none reqBadBody).url =
      upstreamBase none ++ pathOrRoot reqBadBody.pathAndQuery ∧
    proxy none reqBadBody sendOk200 =
      handleResult (sendOk200 (buildOutbound none reqBadBody)) :=
  body_read_failure_degrades none reqBadBody "length limit exceeded" sendOk200 rfl

/-- Counterexample to C4 as stated: the 502-iff-failure direction fails,
since an upstream that itself answers 502 is relayed as 502 by the
success branch even though the outbound call succeeded. -/
theorem bad_gateway_iff_refuted :
    callSucceeded (sendOk502 (buildOutbound none reqSample)) = true ∧
    (proxy none reqSample sendOk502).map ProxyResponse.status = some 502 :=
  ⟨rfl, rfl⟩

/-- Claim C4 (amended): whenever the outbound call fails, the response
carries status 502 and a non-empty plain-text body containing the
description of the underlying error; the converse does not hold, since a
502 status produced by the upstream itself is relayed unchanged. -/
theorem bad_gateway_on_failure (env : Option String) (req : InboundRequest)
    (send : OutboundRequest → Except String UpstreamResponse)
    (e : String) (h : send (buildOutbound env req) = Except.error e) :
    ∃ resp : ProxyResponse, proxy env req send = some resp ∧
      resp.status = 502 ∧
      resp.body = .text ("Proxy error: " ++ e) ∧
      ("Proxy error: " ++ e).length > 0 := by
  refine ⟨{ status := 502, headers := [], body := .text ("Proxy error: " ++ e) },
    ?_, rfl, rfl, ?_⟩
  · simp [proxy, h, handleResult, buildResponse, statusValid]
  · simp [String.length_append]
    exact Or.inl (by decide)

/-- Witness for amended C4 at a concrete failing oracle. -/
theorem bad_gateway_on_failure_witness :
    ∃ resp : ProxyResponse, proxy none reqSample sendFail = some resp ∧
      resp.status = 502 ∧
      resp.body = .text ("Proxy error: " ++ "connection refused") ∧
      ("Proxy error: " ++ "connection refused").length > 0 :=
  bad_gateway_on_failure none reqSample sendFail "connection refused" rfl

/-- Counterexample to C7 as stated: the upstream answers 200 with a
non-empty header set, yet the response handed to the caller has an empty
header set, so the upstream headers are not carried through. -/
theorem response_headers_not_relayed :
    sendOk200 (buildOutbound none reqSample) = Except.ok respOk200 ∧
    respOk200.headers = [("content-type", "text/plain")] ∧
    (proxy none reqSample sendOk200).map ProxyResponse.headers = some [] ∧
    (proxy none reqSample sendOk200).map ProxyResponse.headers ≠ some respOk200.headers :=
  ⟨rfl, rfl, rfl, by decide⟩

/-- Claim C7 (amended): on a successful outbound call, the upstream
status and body stream are carried through, but the upstream header set
is not copied: the caller-facing response is built with an empty header
set regardless of the upstream headers. -/
theorem success_relay_drops_headers (env : Option String) (req : InboundRequest)
    (send : OutboundRequest → Except String UpstreamResponse)
    (r : UpstreamResponse) (h : send (buildOutbound env req) = Except.ok r) :
    ∃ resp : ProxyResponse, proxy env req send = some resp ∧
      resp.status = r.status ∧
      resp.body = .stream r.bodyChunks ∧
      resp.headers = [] := by
  refine ⟨{ status := r.status, headers := [], body := .stream r.bodyChunks },
    ?_, rfl, rfl, rfl⟩
  simp [proxy, h, handleResult, buildResponse, r.statusOk]

/-- Witness for amended C7 at a concrete successful oracle. -/
theorem success_relay_drops_headers_witness :
    ∃ resp : ProxyResponse, proxy none reqSample sendOk200 = some resp ∧
      resp.status = respOk200.status ∧
      resp.body = .stream respOk200.bodyChunks ∧
      resp.headers = [] :=
  success_relay_drops_headers none reqSample sendOk200 respOk200 rfl

/-- Claim C8: the handler is total: for every environment snapshot,
inbound request and outbound-call outcome it produces a response, i.e.
both uses of the response builder succeed and the unwrapped error
branches are unreachable. -/
theorem handler_total (env : Option String) (req : InboundRequest)
    (send : OutboundRequest → Except String UpstreamResponse) :
    ∃ resp : ProxyResponse, proxy env req send = some resp := by
  unfold proxy
  cases hres : send (buildOutbound env req) with
  | ok r =>
      exact ⟨{ status := r.status, headers := [], body := .stream r.bodyChunks },
        by simp [handleResult, buildResponse, r.statusOk]⟩
  | error e =>
      exact ⟨{ status := 502, headers := [], body := .text ("Proxy error: " ++ e) }, rfl⟩

/-- Claim C9: each request's target URL is computed from the environment
value observed at its own handling time, so two requests handled under
environments whose resolved bases differ are forwarded to distinct
upstream bases. -/
theorem env_read_per_request (e1 e2 : Option String) (req1 req2 : InboundRequest)
    (h : upstreamBase e1 ≠ upstreamBase e2) :
    ∃ b1 b2 : String, b1 ≠ b2 ∧ b1 = upstreamBase e1 ∧ b2 = upstreamBase e2 ∧
      (buildOutbound e1 req1).url = b1 ++ pathOrRoot req1.pathAndQuery ∧
      (buildOutbound e2 req2).url = b2 ++ pathOrRoot req2.pathAndQuery :=
  ⟨upstreamBase e1, upstreamBase e2, h, rfl, rfl, rfl, rfl⟩

/-- Witness for C9: the default base versus an override resolve to
distinct bases for the same concrete request. -/
theorem env_read_per_request_witness :
    ∃ b1 b2 : String, b1 ≠ b2 ∧ b1 = upstreamBase none ∧
      b2 = upstreamBase (some "http://other:9999") ∧
      (buildOutbound none reqSample).url = b1 ++ pathOrRoot reqSample.pathAndQuery ∧
      (buildOutbound (some "http://other:9999") reqSample).url =
        b2 ++ pathOrRoot reqSample.pathAndQuery :=
  env_read_per_request none (some "http://other:9999") reqSample reqSample (by decide)

/-- Claim C10: the handler is deterministic: two invocations agreeing on
method, path-and-query, headers, body-read outcome, environment value
and outbound-call outcome produce identical responses. -/
theorem handler_deterministic (env : Option String) (req1 req2 : InboundRequest)
    (send1 send2 : OutboundRequest → Except String UpstreamResponse)
    (hm : req1.method = req2.method)
    (hp : req1.pathAndQuery = req2.pathAndQuery)
    (hh : req1.headers = req2.headers)
    (hb : req1.bodyRead = req2.bodyRead)
    (hs : send1 (buildOutbound env req1) = send2 (buildOutbound env req2)) :
    proxy env req1 send1 = proxy env req2 send2 := by
  unfold proxy
  rw [hs]

/-- Witness for C10 at a concrete invocation pair. -/
theorem handler_deterministic_witness :
    proxy none reqSample sendOk200 =
      proxy none reqSample (fun _ => Except.ok respOk200) :=
  handler_deterministic none reqSample reqSample sendOk200
    (fun _ => Except.ok respOk200) rfl rfl rfl rfl rfl

end LlmProxy
